import Mathlib

/-!
Verification development for the J1hub marketplace core: the identity
verification workflow (`routes/verify.py`, `models/user.py`), the listing
access policy (`routes/listings.py`), the billing ledger
(`routes/billing.py`, `models/employer_subscription.py`) and registration
(`routes/auth.py`), shallowly embedded as executable Lean functions.

Conventions of the embedding:
* SQLAlchemy tables become Lean lists of records; `filter_by(...).first()`
  becomes a first-match search, in-place mutation of a fetched row becomes
  an update of the first matching element, and `ORDER BY` becomes a sort.
* `datetime` values become `Nat` timestamps ordered by `≤`.
* Python strings become `String`; roles and statuses stay open strings as
  they are in the source.  Python's `str.lower`, `str.strip`, `int(...)`
  and `rsplit(".", 1)[-1]` are re-implemented on character lists so that
  every definition evaluates inside the kernel; they agree with the
  originals on ASCII input, which is all the handlers compare against.
* HTTP handlers become pure functions returning the response status code
  together with the post-state; request-body parsing (JSON, multipart,
  Decimal, ISO dates) is plumbing the spec declares out of scope, so the
  payload structures carry already-extracted optional fields.
* External collaborators (blob storage, Stripe subscription retrieval) are
  parameters: storage is assumed to succeed, the Stripe lookup is a
  function argument.
-/

namespace J1hub

/-! ### Character-level string helpers -/

/-- ASCII whitespace recognizer used by the `strip` model. -/
def isSpaceChar (c : Char) : Bool :=
  c == ' ' || c == '\t' || c == '\n' || c == '\r'

/-- Python `str.strip` on a character list (ASCII whitespace). -/
def trimChars (cs : List Char) : List Char :=
  ((cs.dropWhile isSpaceChar).reverse.dropWhile isSpaceChar).reverse

/-- Python `str.lower` (ASCII). -/
def lowerString (s : String) : String :=
  ⟨s.data.map Char.toLower⟩

/-- Python `str.strip().lower()` (ASCII). -/
def stripLower (s : String) : String :=
  lowerString ⟨trimChars s.data⟩

/-- Digit-string to number; `none` when empty or any non-digit occurs. -/
def digitsToNat (cs : List Char) : Option Nat :=
  if cs.isEmpty then none
  else
    cs.foldl
      (fun acc c =>
        match acc with
        | none => none
        | some n => if c.isDigit then some (n * 10 + (c.toNat - 48)) else none)
      (some 0)

/-- Python `int(s)` on a string: optional surrounding whitespace, optional
sign, decimal digits; `none` models a raised `ValueError`. -/
def parse_int (s : String) : Option Int :=
  match trimChars s.data with
  | '-' :: rest => (digitsToNat rest).map (fun n => -(n : Int))
  | '+' :: rest => (digitsToNat rest).map (fun n => (n : Int))
  | cs => (digitsToNat cs).map (fun n => (n : Int))

/-- Python `filename.rsplit(".", 1)[-1].lower()` (`routes/verify.py`
`_validate_document`). -/
def file_extension (filename : String) : String :=
  lowerString ⟨(filename.data.reverse.takeWhile (fun c => c != '.')).reverse⟩

/-! ### Data model (`models/user.py`, `models/listing.py`,
`models/visa_document.py`, `models/employer_subscription.py`) -/

/-- `models/user.py` `User` (fields relevant to the core). -/
structure User where
  id : Int
  email : String
  role : String
  is_verified : Bool
  verification_status : String
  is_active : Bool
deriving Repr, DecidableEq

/-- `models/listing.py` `Listing` (fields relevant to the core; `pay_rate`,
`currency` and `shift` are inert payload carried through unchanged and are
omitted). -/
structure Listing where
  id : Int
  category : String
  title : String
  description : String
  company_name : Option String
  contact_method : String
  contact_value : String
  city : Option String
  is_public : Bool
  is_active : Bool
  expires_at : Option Nat
  created_by : Int
deriving Repr, DecidableEq

/-- `models/visa_document.py` `VisaDocument`. -/
structure VisaDocument where
  id : Int
  user_id : Int
  filename : String
  status : String
  reviewer_id : Option Int
  review_note : Option String
  waiver_acknowledged : Bool
  created_at : Nat
deriving Repr, DecidableEq

/-- `models/employer_subscription.py` `EmployerSubscription`. -/
structure EmployerSubscription where
  user_id : Int
  active_until : Option Nat
  listing_credits : Int
deriving Repr, DecidableEq

/-- The spec's derived-flag invariant: `isVerified == (verificationStatus ==
approved)` (spec §3, User). -/
def verification_invariant (u : User) : Prop :=
  u.is_verified = (u.verification_status == "approved")

instance (u : User) : Decidable (verification_invariant u) := by
  unfold verification_invariant; infer_instance

/-! ### AccessPolicy (`routes/listings.py`) -/

/-- `routes/listings.py` `_can_access_listing`. -/
def can_access_listing (listing : Listing) (user : Option User) : Bool :=
  if listing.is_public then true
  else
    match user with
    | none => false
    | some u =>
      if u.role == "admin" || u.id == listing.created_by then true
      else u.is_verified

/-- The spec's wording of `canView` (spec §4.2), stated over
`verificationStatus` rather than the stored `is_verified` flag; used to
compare against `can_access_listing`. -/
def canView_spec (listing : Listing) (viewer : Option User) : Prop :=
  listing.is_public = true ∨
    ∃ u, viewer = some u ∧
      (u.role = "admin" ∨ u.id = listing.created_by ∨
        u.verification_status = "approved")

/-! ### VerificationWorkflow user-status helpers (`routes/verify.py`,
`models/user.py`) -/

/-- `routes/verify.py` `_update_user_status`. -/
def update_user_status (u : User) (status : String) : User :=
  { u with verification_status := status, is_verified := status == "approved" }

/-- `models/user.py` `User.mark_verified`. -/
def mark_verified (u : User) : User :=
  { u with is_verified := true, verification_status := "approved" }

/-- `models/user.py` `User.mark_unverified`; Python's `note or "unverified"`
treats both `None` and the empty string as absent. -/
def mark_unverified (u : User) (note : Option String) : User :=
  { u with
    is_verified := false
    verification_status :=
      match note with
      | some s => if s == "" then "unverified" else s
      | none => "unverified" }

/-! ### VerificationWorkflow routes (`routes/verify.py`) -/

/-- Default allow-list of upload extensions (`routes/verify.py`
`ALLOWED_EXTENSIONS_DEFAULT`); the config override is out of scope. -/
def allowed_extensions_default : List String := ["jpeg", "jpg", "png", "pdf"]

/-- `routes/verify.py` `MAX_UPLOAD_SIZE_DEFAULT` (10 MB). -/
def max_upload_size_default : Nat := 10 * 1024 * 1024

/-- A multipart file part: `werkzeug` `FileStorage` reduced to the fields
the handler reads (declared name and byte size). -/
structure FilePayload where
  filename : Option String
  size : Nat
deriving Repr, DecidableEq

/-- `routes/verify.py` `_parse_bool` restricted to form-string inputs (the
only inputs it receives from `request.form`). -/
def parse_bool (value : Option String) : Option Bool :=
  match value with
  | none => none
  | some v =>
    let text := stripLower v
    if text ∈ ["1", "true", "yes", "y"] then some true
    else if text ∈ ["0", "false", "no", "n"] then some false
    else none

/-- `routes/verify.py` `_validate_document` as a pass/fail check (all its
failures raise `BadRequest`, i.e. 400). -/
def validate_document (f : FilePayload) : Bool :=
  match f.filename with
  | none => false
  | some name =>
    if (trimChars name.data).isEmpty then false
    else if !(file_extension name ∈ allowed_extensions_default) then false
    else decide (f.size ≤ max_upload_size_default)

/-- `routes/verify.py` `upload_document`: returns the HTTP status, the
document table and the (possibly updated) user. Blob storage is assumed to
succeed; `next_id` and `now` stand for the generated primary key and
`created_at`. -/
def upload_document (user : User) (file : Option FilePayload)
    (waiver : Option String) (docs : List VisaDocument) (next_id : Int)
    (now : Nat) : Nat × List VisaDocument × User :=
  match file with
  | none => (400, docs, user)
  | some f =>
    if !validate_document f then (400, docs, user)
    else
      match parse_bool waiver with
      | none => (400, docs, user)
      | some w =>
        let doc : VisaDocument :=
          { id := next_id, user_id := user.id,
            filename := (f.filename.getD "document"),
            status := "pending", reviewer_id := none, review_note := none,
            waiver_acknowledged := w, created_at := now }
        (201, docs ++ [doc], update_user_status user "pending")

/-- First document with the given primary key (`VisaDocument.query.get`). -/
def find_document (docs : List VisaDocument) (docId : Int) :
    Option VisaDocument :=
  docs.find? (fun d => d.id == docId)

/-- Update the first document with the given id in place. -/
def update_document (docs : List VisaDocument) (docId : Int)
    (f : VisaDocument → VisaDocument) : List VisaDocument :=
  match docs with
  | [] => []
  | d :: rest =>
    if d.id == docId then f d :: rest
    else d :: update_document rest docId f

/-- Single-user view of the verification store: the user plus their
documents (operations on other users' documents never touch this user's
status in the source, so they are omitted from the projection). -/
structure VerifyState where
  user : User
  docs : List VisaDocument
deriving Repr, DecidableEq

/-- `routes/verify.py` `approve_document`: requires an admin reviewer,
404s on a missing document, otherwise overwrites the document's decision
fields and sets the owner's status to approved. -/
def approve_document (reviewer : User) (docId : Int) (s : VerifyState) :
    Nat × VerifyState :=
  if reviewer.role != "admin" then (403, s)
  else
    match find_document s.docs docId with
    | none => (404, s)
    | some _ =>
      (200,
        { user := update_user_status s.user "approved",
          docs := update_document s.docs docId fun d =>
            { d with status := "approved", review_note := none,
                     reviewer_id := some reviewer.id } })

/-- `routes/verify.py` `reject_document` (the JSON note parsing is
plumbing; `note` is the already-extracted optional review note). -/
def reject_document (reviewer : User) (docId : Int) (note : Option String)
    (s : VerifyState) : Nat × VerifyState :=
  if reviewer.role != "admin" then (403, s)
  else
    match find_document s.docs docId with
    | none => (404, s)
    | some _ =>
      (200,
        { user := update_user_status s.user "rejected",
          docs := update_document s.docs docId fun d =>
            { d with status := "rejected", review_note := note,
                     reviewer_id := some reviewer.id } })

/-- One public-API operation on a user's verification state. -/
inductive VerifyOp where
  | upload (file : Option FilePayload) (waiver : Option String)
  | approve (reviewer : User) (docId : Int)
  | reject (reviewer : User) (docId : Int) (note : Option String)
deriving Repr, DecidableEq

/-- State effect of one operation (the returned HTTP status is dropped;
failed operations leave the state unchanged in the handlers). -/
def stepVerify (s : VerifyState) (op : VerifyOp) : VerifyState :=
  match op with
  | .upload file waiver =>
    let r := upload_document s.user file waiver s.docs
      (Int.ofNat s.docs.length) s.docs.length
    { user := r.2.2, docs := r.2.1 }
  | .approve reviewer docId => (approve_document reviewer docId s).2
  | .reject reviewer docId note => (reject_document reviewer docId note s).2

/-- Freshly registered user with no documents. -/
def initVerifyState (uid : Int) : VerifyState :=
  { user := { id := uid, email := "", role := "worker", is_verified := false,
              verification_status := "unverified", is_active := true },
    docs := [] }

/-- Run a sequence of public-API operations from the initial state. -/
def runVerify (uid : Int) (ops : List VerifyOp) : VerifyState :=
  ops.foldl stepVerify (initVerifyState uid)

/-- The transition edges claimed by the spec (§8). -/
def claimed_edge (a b : String) : Bool :=
  (a == "unverified" && b == "pending") ||
  (a == "pending" && (b == "approved" || b == "rejected")) ||
  ((a == "approved" || a == "rejected") && b == "pending")

/-- The edges actually realizable: resolving a document while the user is
already resolved also moves approved→rejected and rejected→approved. -/
def amended_edge (a b : String) : Bool :=
  claimed_edge a b ||
  (a == "approved" && b == "rejected") ||
  (a == "rejected" && b == "approved")

/-- Reachability invariant: the status stays in the four-element status
set, and an unverified user has no documents on file. -/
def verifyInv (s : VerifyState) : Prop :=
  (s.user.verification_status = "unverified" ∨
   s.user.verification_status = "pending" ∨
   s.user.verification_status = "approved" ∨
   s.user.verification_status = "rejected") ∧
  (s.user.verification_status = "unverified" → s.docs = [])

/-! ### ReviewQueue (`routes/verify.py` `list_pending_documents`) -/

/-- Review-queue order: ascending `created_at` (`ORDER BY created_at ASC`). -/
def docLe (a b : VisaDocument) : Prop := a.created_at ≤ b.created_at

instance : DecidableRel docLe := fun a b =>
  inferInstanceAs (Decidable (a.created_at ≤ b.created_at))

instance : IsTotal VisaDocument docLe :=
  ⟨fun a b => Nat.le_total a.created_at b.created_at⟩

instance : IsTrans VisaDocument docLe := ⟨fun _ _ _ h1 h2 => Nat.le_trans h1 h2⟩

/-- `routes/verify.py` `list_pending_documents`: admin-only; pending
documents ordered by creation time ascending (`_require_user` maps a
missing user to 404, `_require_admin` a non-admin to 403; the SQL
`filter_by(status="pending").order_by(created_at.asc())` becomes filter
plus a stable sort). -/
def list_pending_documents (current_user : Option User)
    (docs : List VisaDocument) : Except Nat (List VisaDocument) :=
  match current_user with
  | none => .error 404
  | some u =>
    if u.role != "admin" then .error 403
    else
      .ok (List.insertionSort docLe
        (docs.filter (fun d => d.status == "pending")))

/-! ### Ledger (`routes/billing.py`) -/

/-- `EmployerSubscription.query.filter_by(user_id=...).first()`. -/
def find_subscription (subs : List EmployerSubscription) (uid : Int) :
    Option EmployerSubscription :=
  match subs with
  | [] => none
  | s :: rest => if s.user_id == uid then some s else find_subscription rest uid

/-- In-place mutation of the row fetched by `filter_by(...).first()`. -/
def update_subscription (subs : List EmployerSubscription) (uid : Int)
    (f : EmployerSubscription → EmployerSubscription) :
    List EmployerSubscription :=
  match subs with
  | [] => []
  | s :: rest =>
    if s.user_id == uid then f s :: rest
    else s :: update_subscription rest uid f

/-- The `active_until` column of the given user's subscription row, if the
row exists. -/
def active_until_of (subs : List EmployerSubscription) (uid : Int) :
    Option Nat :=
  (find_subscription subs uid).bind EmployerSubscription.active_until

/-- Webhook metadata as read by `routes/billing.py` (`user_id`,
`billing_type`, `quantity`, all optional strings). -/
structure StripeMetadata where
  user_id : Option String
  billing_type : Option String
  quantity : Option String
deriving Repr, DecidableEq

/-- Result of the external `stripe.Subscription.retrieve` call. -/
structure StripeSubscriptionObject where
  metadata : StripeMetadata
  current_period_end : Option Nat
deriving Repr, DecidableEq

/-- The `data.object` part of a webhook event. -/
structure WebhookObject where
  metadata : StripeMetadata
  subscription : Option String
deriving Repr, DecidableEq

/-- A signature-verified webhook event (`type` plus `data.object`). -/
structure WebhookEvent where
  type : String
  object : WebhookObject
deriving Repr, DecidableEq

/-- `routes/billing.py` `_handle_listing_purchase` (the
`_get_or_create_subscription` call is inlined as find-or-append). -/
def handle_listing_purchase (metadata : StripeMetadata)
    (subs : List EmployerSubscription) : List EmployerSubscription :=
  match metadata.user_id with
  | none => subs
  | some uid_str =>
    if uid_str == "" then subs
    else
      match parse_int uid_str with
      | none => subs
      | some uid =>
        let quantity : Int :=
          match metadata.quantity with
          | none => 1
          | some q =>
            match parse_int q with
            | none => 1
            | some n => n
        let quantity : Int := max quantity 1
        match find_subscription subs uid with
        | none =>
          subs ++ [{ user_id := uid, active_until := none,
                     listing_credits := quantity }]
        | some _ =>
          update_subscription subs uid fun s =>
            { s with listing_credits := s.listing_credits + quantity }

/-- `routes/billing.py` `_set_subscription_active`. -/
def set_subscription_active (subs : List EmployerSubscription) (uid : Int)
    (current_period_end : Option Nat) : List EmployerSubscription :=
  match current_period_end with
  | none => subs
  | some p =>
    match find_subscription subs uid with
    | none =>
      subs ++ [{ user_id := uid, active_until := some p,
                 listing_credits := 0 }]
    | some s =>
      if (match s.active_until with
          | none => true
          | some a => decide (a < p)) then
        update_subscription subs uid fun t => { t with active_until := some p }
      else subs

/-- `routes/billing.py` `_handle_subscription_event`; `lookup` is the
external `stripe.Subscription.retrieve`, `none` modelling a `StripeError`. -/
def handle_subscription_event
    (lookup : String → Option StripeSubscriptionObject)
    (subscription_id : Option String) (subs : List EmployerSubscription) :
    List EmployerSubscription :=
  match subscription_id with
  | none => subs
  | some sid =>
    if sid == "" then subs
    else
      match lookup sid with
      | none => subs
      | some obj =>
        match obj.metadata.user_id with
        | none => subs
        | some uid_str =>
          if uid_str == "" then subs
          else
            match parse_int uid_str with
            | none => subs
            | some uid => set_subscription_active subs uid obj.current_period_end

/-- `routes/billing.py` `billing_webhook` after signature verification
succeeds: dispatch on event type, then commit and answer 200. -/
def billing_webhook (lookup : String → Option StripeSubscriptionObject)
    (event : WebhookEvent) (subs : List EmployerSubscription) :
    Nat × List EmployerSubscription :=
  let md := event.object.metadata
  let new_subs :=
    if event.type == "checkout.session.completed" then
      if md.billing_type == some "listing" then
        handle_listing_purchase md subs
      else if md.billing_type == some "subscription" then
        handle_subscription_event lookup event.object.subscription subs
      else subs
    else if event.type == "invoice.paid" then
      handle_subscription_event lookup event.object.subscription subs
    else subs
  (200, new_subs)

/-! ### Listing creation (`routes/listings.py` `create_listing`) -/

/-- `models/listing.py` `LISTING_CATEGORIES`. -/
def listing_categories : List String := ["jobs", "housing", "rides", "gigs"]

/-- JSON body of a listing-creation request, with the fields already
extracted (`pay_rate`/`currency`/`shift` are inert payload and omitted;
their parse failures are representable through `requiredPresent` on the
fields the claims exercise). -/
structure ListingPayload where
  category : Option String
  title : Option String
  description : Option String
  company_name : Option String
  contact_method : Option String
  contact_value : Option String
  city : Option String
  is_public : Option Bool
  is_active : Option Bool
  expires_at : Option Nat
deriving Repr, DecidableEq

/-- Python's `if not data.get(field)` required-field test (absent, `None`
and the empty string are all falsy). -/
def requiredPresent (v : Option String) : Bool :=
  match v with
  | none => false
  | some s => s != ""

/-- `routes/listings.py` `create_listing`: employer/admin gate, field
validation, then an unconditional insert.  The subscription table is
threaded through to show the handler's effect on it (none: the source
never consults billing state here). -/
def create_listing (current_user : Option User) (data : ListingPayload)
    (listings : List Listing) (subs : List EmployerSubscription)
    (next_id : Int) : Nat × List Listing × List EmployerSubscription :=
  match current_user with
  | none => (403, listings, subs)
  | some u =>
    if u.role != "employer" && u.role != "admin" then (403, listings, subs)
    else
      let missing_required :=
        !requiredPresent data.category || !requiredPresent data.title ||
        !requiredPresent data.description ||
        !requiredPresent data.contact_method ||
        !requiredPresent data.contact_value
      let bad_category :=
        match data.category with
        | some c => c != "" && !(c ∈ listing_categories)
        | none => false
      if missing_required || bad_category then (400, listings, subs)
      else
        let listing : Listing :=
          { id := next_id, category := data.category.getD "",
            title := data.title.getD "",
            description := data.description.getD "",
            company_name := data.company_name,
            contact_method := data.contact_method.getD "",
            contact_value := data.contact_value.getD "",
            city := data.city, is_public := data.is_public.getD true,
            is_active := data.is_active.getD true,
            expires_at := data.expires_at, created_by := u.id }
        (201, listings ++ [listing], subs)

/-! ### Registration (`routes/auth.py`) -/

/-- `routes/auth.py` `ALLOWED_ROLES`. -/
def allowed_roles : List String := ["worker", "employer", "admin"]

/-- `routes/auth.py` `_normalize_email`. -/
def normalize_email (raw : Option String) : String :=
  stripLower (raw.getD "")

/-- `routes/auth.py` `_extract_role`: lowercases and strips the raw role,
substitutes the model default "worker" when it is empty, and returns the
empty string when the result is not an allowed role. -/
def extract_role (raw : Option String) : String :=
  let role := stripLower (raw.getD "")
  let role := if role == "" then "worker" else role
  if role ∈ allowed_roles then role else ""

/-- JSON body of a registration request. -/
structure RegisterPayload where
  email : Option String
  password : Option String
  role : Option String
deriving Repr, DecidableEq

/-- `routes/auth.py` `register`: normalizes the email, strips the
password, coerces the role (`_extract_role(...) or default`), validates,
checks case-insensitive email uniqueness and inserts the user. -/
def register (payload : RegisterPayload) (users : List User)
    (next_id : Int) : Nat × List User :=
  let email := normalize_email payload.email
  let password : String := ⟨trimChars (payload.password.getD "").data⟩
  let role :=
    let r := extract_role payload.role
    if r == "" then "worker" else r
  if email == "" || password == "" then (400, users)
  else if (match payload.role with
           | some s => s != ""
           | none => false) && !(role ∈ allowed_roles) then
    (400, users)
  else if users.any (fun u => lowerString u.email == email) then (409, users)
  else
    (201, users ++ [{ id := next_id, email := email, role := role,
                      is_verified := false,
                      verification_status := "unverified",
                      is_active := true }])

/-! ### Concrete records used as evaluation points -/

/-- A generic worker record. -/
def worker0 : User :=
  { id := 1, email := "worker@example.com", role := "worker",
    is_verified := false, verification_status := "unverified",
    is_active := true }

/-- A generic admin record. -/
def admin0 : User :=
  { id := 99, email := "admin@example.com", role := "admin",
    is_verified := false, verification_status := "unverified",
    is_active := true }

/-- An employer record with user id 7. -/
def employer0 : User :=
  { id := 7, email := "employer@example.com", role := "employer",
    is_verified := false, verification_status := "unverified",
    is_active := true }

/-- A non-public listing owned by user 7. -/
def privateListing0 : Listing :=
  { id := 1, category := "jobs", title := "T", description := "D",
    company_name := none, contact_method := "email",
    contact_value := "e@example.com", city := none, is_public := false,
    is_active := true, expires_at := none, created_by := 7 }

/-- A well-formed PDF upload. -/
def file0 : FilePayload := { filename := some "visa.pdf", size := 100 }

/-- Employer 7's subscription row: zero credits, no active period. -/
def sub0 : EmployerSubscription :=
  { user_id := 7, active_until := none, listing_credits := 0 }

/-- Employer 7's subscription row with a short active period. -/
def sub3 : EmployerSubscription :=
  { user_id := 7, active_until := some 3, listing_credits := 0 }

/-- A fully valid listing-creation body. -/
def payload0 : ListingPayload :=
  { category := some "jobs", title := some "Test Role",
    description := some "Job description", company_name := none,
    contact_method := some "email",
    contact_value := some "employer@example.com", city := none,
    is_public := none, is_active := none, expires_at := none }

/-- Webhook metadata granting one listing credit to user 7. -/
def md_grant1 : StripeMetadata :=
  { user_id := some "7", billing_type := some "listing",
    quantity := some "1" }

/-- Webhook metadata for user 7 with an unparsable quantity. -/
def md_badqty : StripeMetadata :=
  { user_id := some "7", billing_type := some "listing",
    quantity := some "abc" }

/-- A signed listing-purchase event carrying `md_badqty`. -/
def event_badqty : WebhookEvent :=
  { type := "checkout.session.completed",
    object := { metadata := md_badqty, subscription := none } }

/-- Three documents: one approved, two pending with out-of-order
creation times. -/
def docs0 : List VisaDocument :=
  [{ id := 1, user_id := 1, filename := "a.pdf", status := "approved",
     reviewer_id := some 99, review_note := none,
     waiver_acknowledged := true, created_at := 5 },
   { id := 2, user_id := 2, filename := "b.pdf", status := "pending",
     reviewer_id := none, review_note := none,
     waiver_acknowledged := true, created_at := 9 },
   { id := 3, user_id := 3, filename := "c.pdf", status := "pending",
     reviewer_id := none, review_note := none,
     waiver_acknowledged := true, created_at := 3 }]

/-- The user record produced by registering with an unrecognized role. -/
def registered_worker : User :=
  { id := 1, email := "a@b.c", role := "worker", is_verified := false,
    verification_status := "unverified", is_active := true }

/-! ## Theorems -/

/-- Claim C3: `_can_access_listing` agrees with the spec's `canView` on
every viewer that satisfies the documented
`isVerified`/`verificationStatus` invariant; moreover a public listing is
visible to everyone and a non-public listing is invisible to an absent
viewer. -/
theorem can_access_listing_spec (listing : Listing) (viewer : Option User)
    (hinv : ∀ u, viewer = some u → verification_invariant u) :
    (can_access_listing listing viewer = true ↔ canView_spec listing viewer) ∧
    (listing.is_public = true → can_access_listing listing viewer = true) ∧
    (listing.is_public = false → can_access_listing listing none = false) := by
  refine ⟨?_, ?_, ?_⟩
  · cases viewer with
    | none =>
      cases hpub : listing.is_public <;>
        simp [can_access_listing, canView_spec, hpub]
    | some u =>
      have hu := hinv u rfl
      unfold verification_invariant at hu
      cases hpub : listing.is_public with
      | true => simp [can_access_listing, canView_spec, hpub]
      | false =>
        simp only [can_access_listing, canView_spec, hpub]
        by_cases h1 : u.role = "admin"
        · simp [h1]
        · by_cases h2 : u.id = listing.created_by
          · simp [h1, h2]
          · by_cases h3 : u.verification_status = "approved"
            · simp [h1, h2, h3, hu]
            · simp [h1, h2, h3, hu]
  · intro h
    simp [can_access_listing, h]
  · intro h
    simp [can_access_listing, h]

/-- Witness for claim C3's theorem: the approved worker sees the
non-public listing and the iff holds there. -/
theorem can_access_listing_spec_witness :
    (can_access_listing privateListing0
        (some (update_user_status worker0 "approved")) = true ↔
      canView_spec privateListing0
        (some (update_user_status worker0 "approved"))) ∧
    canView_spec privateListing0
      (some (update_user_status worker0 "approved")) := by
  have h := can_access_listing_spec privateListing0
    (some (update_user_status worker0 "approved"))
    (by intro u hu; cases hu; decide)
  exact ⟨h.1, h.1.mp (by decide)⟩

/-- Counterexample for claim C4 as stated: `User.mark_unverified` stores
its note verbatim as the verification status, so a note of "approved"
leaves `is_verified = false` while `verification_status = "approved"`,
breaking the invariant. -/
theorem mark_unverified_breaks_invariant :
    ¬ verification_invariant (mark_unverified worker0 (some "approved")) := by
  decide

/-- Claim C4 (amended): the invariant `isVerified == (verificationStatus ==
approved)` holds after `_update_user_status` (hence after the upload,
approve and reject routes, which mutate user state only through it), after
`mark_verified`, and after `mark_unverified` whenever the optional note is
not the literal string "approved". -/
theorem verification_invariant_after_mutations (u : User) (status : String)
    (note : Option String) :
    verification_invariant (update_user_status u status) ∧
    verification_invariant (mark_verified u) ∧
    (note ≠ some "approved" →
      verification_invariant (mark_unverified u note)) := by
  refine ⟨rfl, by simp [verification_invariant, mark_verified], ?_⟩
  intro hnote
  unfold verification_invariant mark_unverified
  cases note with
  | none => simp
  | some s =>
    by_cases hs : s = ""
    · simp [hs]
    · have hsa : s ≠ "approved" := fun h => hnote (by rw [h])
      simp [hs, hsa]

/-- Witness for claim C4's amended theorem at a concrete user, status and
note. -/
theorem verification_invariant_after_mutations_witness :
    verification_invariant (update_user_status worker0 "pending") ∧
    verification_invariant (mark_unverified worker0 (some "needs documents")) :=
  ⟨(verification_invariant_after_mutations worker0 "pending" none).1,
    (verification_invariant_after_mutations worker0 "pending"
        (some "needs documents")).2.2 (by decide)⟩

/-- Counterexample for claim C5 as stated: a submission whose waiver field
parses to `false` is accepted (201), creates a pending document recording
`waiver_acknowledged = false`, and moves the user from unverified to
pending; only a waiver value that is missing or unparsable is rejected. -/
theorem upload_waiver_false_not_rejected :
    (upload_document worker0 (some file0) (some "false") [] 1 0).1 = 201 ∧
    (upload_document worker0 (some file0) (some "false") [] 1 0).2.1 ≠ [] ∧
    (upload_document worker0 (some file0) (some "false")
        [] 1 0).2.2.verification_status = "pending" ∧
    worker0.verification_status = "unverified" := by
  decide

/-- Claim C5 (amended): for a valid file part, the upload fails with 400
and leaves the document table and the user unchanged exactly when the
waiver form value does not parse as a boolean; a waiver that parses to
`false` is accepted: 201, a new pending document with
`waiver_acknowledged = false`, and the user's status set to pending. -/
theorem upload_waiver_semantics (user : User) (f : FilePayload)
    (docs : List VisaDocument) (next_id : Int) (now : Nat)
    (hf : validate_document f = true) :
    (∀ w, parse_bool w = none →
      upload_document user (some f) w docs next_id now = (400, docs, user)) ∧
    upload_document user (some f) (some "false") docs next_id now =
      (201,
        docs ++
          [{ id := next_id, user_id := user.id,
             filename := f.filename.getD "document", status := "pending",
             reviewer_id := none, review_note := none,
             waiver_acknowledged := false, created_at := now }],
        update_user_status user "pending") := by
  constructor
  · intro w hw
    simp [upload_document, hf, hw]
  · have hfalse : parse_bool (some "false") = some false := by decide
    simp [upload_document, hf, hfalse]

/-- Witness for claim C5's amended theorem at a concrete valid upload. -/
theorem upload_waiver_semantics_witness :
    upload_document worker0 (some file0) (some "maybe") [] 1 0 =
      (400, [], worker0) ∧
    upload_document worker0 (some file0) (some "false") [] 1 0 =
      (201,
        [{ id := 1, user_id := worker0.id, filename := "visa.pdf",
           status := "pending", reviewer_id := none, review_note := none,
           waiver_acknowledged := false, created_at := 0 }],
        update_user_status worker0 "pending") :=
  ⟨(upload_waiver_semantics worker0 file0 [] 1 0 (by decide)).1
      (some "maybe") (by decide),
    (upload_waiver_semantics worker0 file0 [] 1 0 (by decide)).2⟩

/-- Counterexample for claim C6 as stated: upload then approve then reject
(all through the public API) drives the user's status along
approved→rejected, an edge absent from the claimed transition relation. -/
theorem approved_to_rejected_reachable :
    (runVerify 1 [VerifyOp.upload (some file0) (some "true"),
        VerifyOp.approve admin0 0]).user.verification_status = "approved" ∧
    (runVerify 1 [VerifyOp.upload (some file0) (some "true"),
        VerifyOp.approve admin0 0,
        VerifyOp.reject admin0 0 none]).user.verification_status =
      "rejected" ∧
    claimed_edge "approved" "rejected" = false := by
  decide

lemma stepVerify_cases (s : VerifyState) (op : VerifyOp) :
    stepVerify s op = s ∨
    (stepVerify s op).user.verification_status = "pending" ∨
    (s.docs ≠ [] ∧
      ((stepVerify s op).user.verification_status = "approved" ∨
       (stepVerify s op).user.verification_status = "rejected")) := by
  cases op with
  | upload file waiver =>
    cases file with
    | none => left; rfl
    | some f =>
      by_cases hv : validate_document f = true
      · cases hw : parse_bool waiver with
        | none =>
          left
          simp [stepVerify, upload_document, hv, hw]
        | some w =>
          right; left
          simp [stepVerify, upload_document, hv, hw, update_user_status]
      · left
        simp only [Bool.not_eq_true] at hv
        simp [stepVerify, upload_document, hv]
  | approve reviewer docId =>
    by_cases hr : (reviewer.role != "admin") = true
    · left; simp [stepVerify, approve_document, hr]
    · cases hd : find_document s.docs docId with
      | none => left; simp [stepVerify, approve_document, hr, hd]
      | some d =>
        right; right
        refine ⟨?_, Or.inl ?_⟩
        · intro hnil
          rw [hnil] at hd
          simp [find_document] at hd
        · simp [stepVerify, approve_document, hr, hd, update_user_status]
  | reject reviewer docId note =>
    by_cases hr : (reviewer.role != "admin") = true
    · left; simp [stepVerify, reject_document, hr]
    · cases hd : find_document s.docs docId with
      | none => left; simp [stepVerify, reject_document, hr, hd]
      | some d =>
        right; right
        refine ⟨?_, Or.inr ?_⟩
        · intro hnil
          rw [hnil] at hd
          simp [find_document] at hd
        · simp [stepVerify, reject_document, hr, hd, update_user_status]

lemma verifyInv_init (uid : Int) : verifyInv (initVerifyState uid) := by
  constructor
  · left; rfl
  · intro _; rfl

lemma verifyInv_step (s : VerifyState) (op : VerifyOp) (h : verifyInv s) :
    verifyInv (stepVerify s op) := by
  rcases stepVerify_cases s op with he | hp | ⟨_, hres⟩
  · rw [he]; exact h
  · exact ⟨Or.inr (Or.inl hp), fun h' => absurd (hp ▸ h') (by decide)⟩
  · rcases hres with ha | ha
    · exact ⟨Or.inr (Or.inr (Or.inl ha)),
        fun h' => absurd (ha ▸ h') (by decide)⟩
    · exact ⟨Or.inr (Or.inr (Or.inr ha)),
        fun h' => absurd (ha ▸ h') (by decide)⟩

lemma verifyInv_run (uid : Int) (ops : List VerifyOp) :
    verifyInv (runVerify uid ops) := by
  suffices h : ∀ s, verifyInv s → verifyInv (ops.foldl stepVerify s) from
    h _ (verifyInv_init uid)
  induction ops with
  | nil => intro s h; exact h
  | cons op rest ih => intro s h; exact ih _ (verifyInv_step s op h)

lemma step_edge (s : VerifyState) (op : VerifyOp) (h : verifyInv s) :
    (stepVerify s op).user.verification_status =
      s.user.verification_status ∨
    amended_edge s.user.verification_status
      (stepVerify s op).user.verification_status = true := by
  rcases stepVerify_cases s op with he | hp | ⟨hne, hres⟩
  · left; rw [he]
  · rcases h.1 with h0 | h0 | h0 | h0
    · right; rw [hp, h0]; decide
    · left; rw [hp, h0]
    · right; rw [hp, h0]; decide
    · right; rw [hp, h0]; decide
  · have hdocs : s.user.verification_status ≠ "unverified" := fun hu =>
      hne (h.2 hu)
    rcases h.1 with h0 | h0 | h0 | h0
    · exact absurd h0 hdocs
    · rcases hres with ha | ha
      · right; rw [ha, h0]; decide
      · right; rw [ha, h0]; decide
    · rcases hres with ha | ha
      · left; rw [ha, h0]
      · right; rw [ha, h0]; decide
    · rcases hres with ha | ha
      · right; rw [ha, h0]; decide
      · left; rw [ha, h0]

/-- Claim C6 (amended): starting from a fresh user, every public-API
operation either leaves the verification status unchanged or moves it
along one of the edges unverified→pending, pending→{approved,rejected},
{approved,rejected}→pending, approved→rejected or rejected→approved — the
last two arising because approve/reject of any existing document
(including an already-resolved one) overwrite the owner's status
unconditionally. -/
theorem verification_status_transitions (uid : Int) (ops : List VerifyOp)
    (op : VerifyOp) :
    (stepVerify (runVerify uid ops) op).user.verification_status =
      (runVerify uid ops).user.verification_status ∨
    amended_edge (runVerify uid ops).user.verification_status
      (stepVerify (runVerify uid ops) op).user.verification_status = true :=
  step_edge _ op (verifyInv_run uid ops)

lemma find_subscription_update (subs : List EmployerSubscription)
    (uid : Int) (f : EmployerSubscription → EmployerSubscription)
    (hf : ∀ t, (f t).user_id = t.user_id) :
    find_subscription (update_subscription subs uid f) uid =
      (find_subscription subs uid).map f := by
  induction subs with
  | nil => rfl
  | cons s rest ih =>
    by_cases h : (s.user_id == uid) = true
    · have h2 : ((f s).user_id == uid) = true := by rw [hf s]; exact h
      simp [update_subscription, find_subscription, h, h2]
    · simp [update_subscription, find_subscription, h, ih]

lemma find_subscription_append_self (subs : List EmployerSubscription)
    (uid : Int) (s : EmployerSubscription)
    (h : find_subscription subs uid = none)
    (hs : (s.user_id == uid) = true) :
    find_subscription (subs ++ [s]) uid = some s := by
  induction subs with
  | nil => simp [find_subscription, hs]
  | cons t rest ih =>
    by_cases ht : (t.user_id == uid) = true
    · exfalso
      simp [find_subscription, ht] at h
    · simp [find_subscription, ht] at h ⊢
      exact ih h

/-- Claim C7: `_set_subscription_active` with a present period end sets
the account's `active_until` to the maximum of its current value (absent
counting as no constraint) and the supplied timestamp, so it never
decreases, and the subscription row is created when absent. -/
theorem set_subscription_active_spec (subs : List EmployerSubscription)
    (uid : Int) (p : Nat) :
    active_until_of (set_subscription_active subs uid (some p)) uid =
      some (match active_until_of subs uid with
            | none => p
            | some a => max a p) ∧
    (∀ a b, active_until_of subs uid = some a →
      active_until_of (set_subscription_active subs uid (some p)) uid =
        some b →
      a ≤ b) ∧
    (find_subscription subs uid = none →
      find_subscription (set_subscription_active subs uid (some p)) uid ≠
        none) := by
  have main : active_until_of (set_subscription_active subs uid (some p)) uid =
      some (match active_until_of subs uid with
            | none => p
            | some a => max a p) := by
    cases hfind : find_subscription subs uid with
    | none =>
      have happ := find_subscription_append_self subs uid
        { user_id := uid, active_until := some p, listing_credits := 0 }
        hfind (by simp)
      simp [active_until_of, set_subscription_active, hfind, happ]
    | some s =>
      have hupd := find_subscription_update subs uid
        (fun t => { t with active_until := some p }) (fun t => rfl)
      cases hau : s.active_until with
      | none =>
        simp [active_until_of, set_subscription_active, hfind, hau, hupd]
      | some a =>
        by_cases hap : a < p
        · simp [active_until_of, set_subscription_active, hfind, hau, hap,
            hupd, Nat.max_eq_right (Nat.le_of_lt hap)]
        · simp [active_until_of, set_subscription_active, hfind, hau, hap,
            Nat.max_eq_left (Nat.not_lt.mp hap)]
  refine ⟨main, ?_, ?_⟩
  · intro a b ha hb
    rw [main] at hb
    rw [ha] at hb
    have hb' : max a p = b := by exact Option.some.inj hb
    rw [← hb']
    exact Nat.le_max_left a p
  · intro _ hfind'
    unfold active_until_of at main
    rw [hfind'] at main
    exact absurd main (by simp)

/-- Witness for claim C7's theorem: extending user 7 from period end 3 to
5 yields max 3 5 = 5, never decreasing, and a fresh row is created when
the table is empty. -/
theorem set_subscription_active_spec_witness :
    active_until_of (set_subscription_active [sub3] 7 (some 5)) 7 =
      some 5 ∧
    (3 : Nat) ≤ 5 ∧
    find_subscription (set_subscription_active [] 7 (some 5)) 7 ≠ none := by
  refine ⟨?_, ?_, (set_subscription_active_spec [] 7 5).2.2 (by decide)⟩
  · rw [(set_subscription_active_spec [sub3] 7 5).1]
    decide
  · exact (set_subscription_active_spec [sub3] 7 5).2.1 3 5 (by decide)
      (by decide)

/-- Claim C8: `list_pending_documents` called by an admin returns exactly
the pending documents, ordered by creation time ascending; any
authenticated non-admin caller gets 403 and no documents. -/
theorem list_pending_documents_spec (u : User) (docs : List VisaDocument) :
    (u.role = "admin" →
      list_pending_documents (some u) docs =
        .ok (List.insertionSort docLe
          (docs.filter (fun d => d.status == "pending"))) ∧
      (List.insertionSort docLe
          (docs.filter (fun d => d.status == "pending"))).Perm
        (docs.filter (fun d => d.status == "pending")) ∧
      List.Sorted docLe
        (List.insertionSort docLe
          (docs.filter (fun d => d.status == "pending"))) ∧
      (∀ d ∈ List.insertionSort docLe
          (docs.filter (fun d => d.status == "pending")),
        d.status = "pending")) ∧
    (u.role ≠ "admin" → list_pending_documents (some u) docs = .error 403) := by
  constructor
  · intro h
    refine ⟨?_, List.perm_insertionSort _ _, List.sorted_insertionSort _ _, ?_⟩
    · have hb : (u.role != "admin") = false := by simp [h]
      simp [list_pending_documents, hb]
    · intro d hd
      have hmem : d ∈ docs.filter (fun d => d.status == "pending") :=
        (List.perm_insertionSort docLe _).mem_iff.mp hd
      simpa using (List.mem_filter.mp hmem).2
  · intro h
    have hb : (u.role != "admin") = true := by simp [h]
    simp [list_pending_documents, hb]

/-- Witness for claim C8's theorem: the admin gets the two pending
documents (oldest first), the worker gets 403. -/
theorem list_pending_documents_spec_witness :
    list_pending_documents (some admin0) docs0 =
      .ok (List.insertionSort docLe
        (docs0.filter (fun d => d.status == "pending"))) ∧
    list_pending_documents (some worker0) docs0 = .error 403 :=
  ⟨((list_pending_documents_spec admin0 docs0).1 rfl).1,
    (list_pending_documents_spec worker0 docs0).2 (by decide)⟩

/-- Counterexample for claim C9 as stated: a validly signed listing
purchase whose quantity is malformed ("abc") is not ignored — the webhook
returns success and grants one listing credit to user 7. -/
theorem webhook_malformed_quantity_still_credits :
    (billing_webhook (fun _ => none) event_badqty [sub0]).1 = 200 ∧
    (billing_webhook (fun _ => none) event_badqty [sub0]).2 =
      [{ sub0 with listing_credits := 1 }] ∧
    ({ sub0 with listing_credits := 1 } : EmployerSubscription) ≠ sub0 := by
  decide

/-- Claim C9 (amended): for a signed listing-purchase event, a missing or
non-integer `user_id` is silently ignored (success, no state change); a
malformed `quantity` does not cause the event to be ignored — it behaves
exactly as `quantity = "1"`, so the purchase is applied with quantity 1
(still returning success). -/
theorem webhook_malformed_metadata
    (lookup : String → Option StripeSubscriptionObject)
    (subs : List EmployerSubscription) (md : StripeMetadata)
    (sid : Option String) (hbt : md.billing_type = some "listing") :
    (md.user_id = none →
      billing_webhook lookup ⟨"checkout.session.completed", ⟨md, sid⟩⟩ subs =
        (200, subs)) ∧
    (∀ s, md.user_id = some s → parse_int s = none →
      billing_webhook lookup ⟨"checkout.session.completed", ⟨md, sid⟩⟩ subs =
        (200, subs)) ∧
    (∀ q, md.quantity = some q → parse_int q = none →
      billing_webhook lookup ⟨"checkout.session.completed", ⟨md, sid⟩⟩ subs =
        billing_webhook lookup
          ⟨"checkout.session.completed",
            ⟨{ md with quantity := some "1" }, sid⟩⟩ subs) := by
  refine ⟨?_, ?_, ?_⟩
  · intro h
    simp [billing_webhook, handle_listing_purchase, hbt, h]
  · intro s hs hp
    by_cases hse : (s == "") = true
    · simp [billing_webhook, handle_listing_purchase, hbt, hs, hse]
    · simp [billing_webhook, handle_listing_purchase, hbt, hs, hse, hp]
  · intro q hq hp
    have hsame : handle_listing_purchase md subs =
        handle_listing_purchase { md with quantity := some "1" } subs := by
      unfold handle_listing_purchase
      cases hu : md.user_id with
      | none => simp [hu]
      | some s =>
        by_cases hse : (s == "") = true
        · simp [hu, hse]
        · cases hpi : parse_int s with
          | none => simp [hu, hse, hpi]
          | some uid =>
            have h1 : parse_int "1" = some 1 := by decide
            simp [hu, hse, hpi, hq, hp, h1]
    simp [billing_webhook, hbt, hsame]

/-- Witness for claim C9's amended theorem: a non-integer user id is
dropped without effect, and the `md_badqty` event acts like a
quantity-one purchase. -/
theorem webhook_malformed_metadata_witness :
    billing_webhook (fun _ => none)
      ⟨"checkout.session.completed",
        ⟨{ user_id := some "x7", billing_type := some "listing",
           quantity := none }, none⟩⟩ [sub0] = (200, [sub0]) ∧
    billing_webhook (fun _ => none) event_badqty [sub0] =
      billing_webhook (fun _ => none)
        ⟨"checkout.session.completed",
          ⟨{ md_badqty with quantity := some "1" }, none⟩⟩ [sub0] := by
  constructor
  · exact (webhook_malformed_metadata (fun _ => none) [sub0]
      { user_id := some "x7", billing_type := some "listing",
        quantity := none } none rfl).2.1 "x7" rfl (by decide)
  · exact (webhook_malformed_metadata (fun _ => none) [sub0]
      md_badqty none rfl).2.2 "abc" rfl (by decide)

/-- Claim C1 (code bug): `create_listing` never consults the billing
ledger — the employer with zero credits and no active subscription still
gets 201 and a stored listing, and the subscription table is untouched
(the repository's own test `test_listing_creation_requires_credits`
expects 402 and no listing here). -/
theorem create_listing_skips_billing_gate :
    (create_listing (some employer0) payload0 [] [sub0] 1).1 = 201 ∧
    (create_listing (some employer0) payload0 [] [sub0] 1).2.1.length = 1 ∧
    (create_listing (some employer0) payload0 [] [sub0] 1).2.2 = [sub0] ∧
    sub0.listing_credits = 0 ∧ sub0.active_until = none ∧
    employer0.role = "employer" := by
  decide

/-- Claim C2 (code bug): after the webhook grants one credit, creating a
listing succeeds but does not decrement the balance, and a second creation
also returns 201 instead of the claimed 402 (the repository's own test
`test_listing_creation_consumes_credit` expects the balance to drop
to 0). -/
theorem credits_granted_but_never_consumed :
    handle_listing_purchase md_grant1 [] =
      [{ user_id := 7, active_until := none, listing_credits := 1 }] ∧
    (create_listing (some employer0) payload0 []
        (handle_listing_purchase md_grant1 []) 1).1 = 201 ∧
    (create_listing (some employer0) payload0 []
        (handle_listing_purchase md_grant1 []) 1).2.2 =
      handle_listing_purchase md_grant1 [] ∧
    (create_listing (some employer0) payload0
        (create_listing (some employer0) payload0 []
            (handle_listing_purchase md_grant1 []) 1).2.1
        (handle_listing_purchase md_grant1 []) 2).1 = 201 := by
  decide

/-- Claim C10 (code bug): registering with the unrecognized role
"superuser" is not rejected — `_extract_role` collapses the invalid role
to the empty string, the `or`-default replaces it with "worker" before
the allowed-roles guard runs, so the guard is unreachable and the user is
created with role "worker" and status 201. -/
theorem register_invalid_role_not_rejected :
    register { email := some "a@b.c", password := some "pw",
               role := some "superuser" } [] 1 = (201, [registered_worker]) ∧
    extract_role (some "superuser") = "" ∧
    registered_worker.role = "worker" := by
  decide

end J1hub
